import Mathlib

/-!
Verification of the in-memory settlement engine (Go, `SettlementEngine`).

The embedding models the engine state as pure data: the `accounts` Go map
becomes an association list `List (String × Account)`, the `transactions`
slice (the Transaction Log) a `List Transaction`, and the buffered channel
`settlementChan` a bounded FIFO `List Transaction` with capacity `queueCap`.
Monetary amounts (`float64` in Go, used only with `+`, `-`, and order
comparisons here) are modelled as rationals `ℚ`; wall-clock timestamps
(`time.Now()`) are threaded explicitly as a `Nat` parameter `now`.
Fallible methods return their new state together with `Option EngineError`,
where `none` is Go's `nil` error.
-/

namespace SettlementEngine

/-- `Transaction` struct: ID, UserID, Amount, Type (Go field `Type`, values
"debit"/"credit"), Status, Timestamp, Description. -/
structure Transaction where
  id : String
  userId : String
  amount : ℚ
  kind : String
  status : String
  timestamp : Nat
  description : String
deriving Repr, DecidableEq

/-- `Account` struct: UserID, Balance, FrozenAmount, Version, UpdatedAt. -/
structure Account where
  userId : String
  balance : ℚ
  frozenAmount : ℚ
  version : Int
  updatedAt : Nat
deriving Repr, DecidableEq

/-- `SettlementResult` struct: TransactionID, Success, NewBalance,
ErrorMessage (empty string when absent, matching Go's zero value),
Timestamp. -/
structure SettlementResult where
  transactionId : String
  success : Bool
  newBalance : ℚ
  errorMessage : String
  timestamp : Nat
deriving Repr, DecidableEq

/-- The Go error string "账户不存在" (account does not exist /
`AccountNotFound`), used in settlement results. -/
def msgAccountNotFound : String := "账户不存在"

/-- The Go error string "余额不足" (insufficient balance /
`InsufficientBalance`). -/
def msgInsufficientBalance : String := "余额不足"

/-- The Go error string "无效的交易类型" (invalid transaction kind /
`InvalidTransactionKind`). -/
def msgInvalidTransactionKind : String := "无效的交易类型"

/-- The distinct `fmt.Errorf` failures returned by the engine's API methods. -/
inductive EngineError where
  /-- "账户 %s 已存在" from `CreateAccount`. -/
  | duplicateAccount
  /-- "无效的交易参数" from `SubmitTransaction`. -/
  | invalidTransaction
  /-- "结算队列已满" from `SubmitTransaction`. -/
  | queueFull
  /-- "账户 %s 不存在" from `FreezeAmount` / `UnfreezeAmount`. -/
  | accountNotFound
  /-- "余额不足，无法冻结" from `FreezeAmount`. -/
  | insufficientBalance
  /-- "冻结金额不足" from `UnfreezeAmount`. -/
  | insufficientFrozenFunds
deriving Repr, DecidableEq

/-- The mutable fields of `SettlementEngine`: the accounts map, the
transaction log, the buffered settlement channel, and the configuration
(channel capacity, batch size).  The mutex, timer, and stop channel are
concurrency plumbing with no data content and are not part of the state. -/
structure EngineState where
  accounts : List (String × Account)
  transactions : List Transaction
  queue : List Transaction
  queueCap : Nat
  batchSize : Nat
deriving Repr, DecidableEq

/-- `NewSettlementEngine`: empty maps, channel capacity 1000, batch size 100
(the 5s batch timeout is timer plumbing, not data). -/
def NewSettlementEngine : EngineState :=
  { accounts := [], transactions := [], queue := [],
    queueCap := 1000, batchSize := 100 }

/-- Go map read `se.accounts[userID]`: the entry stored under `userID`,
if any. -/
def lookupAccount (accounts : List (String × Account)) (userID : String) :
    Option Account :=
  (accounts.find? (fun p => p.1 == userID)).map (fun p => p.2)

/-- Go pointer update `account.… = …` of the entry stored under `userID`:
every binding of that key is replaced by the new account value. -/
def updateAccount (accounts : List (String × Account)) (userID : String)
    (a : Account) : List (String × Account) :=
  accounts.map (fun p => if p.1 == userID then (p.1, a) else p)

/-- `CreateAccount(userID, initialBalance)`: fails if the userID exists,
otherwise inserts `{UserID: userID, Balance: initialBalance,
FrozenAmount: 0, Version: 1, UpdatedAt: now}`.  No validation of
`initialBalance` is performed. -/
def CreateAccount (s : EngineState) (userID : String) (initialBalance : ℚ)
    (now : Nat) : EngineState × Option EngineError :=
  match lookupAccount s.accounts userID with
  | some _ => (s, some .duplicateAccount)
  | none =>
      ({ s with accounts := s.accounts ++
          [(userID, { userId := userID, balance := initialBalance,
                      frozenAmount := 0, version := 1, updatedAt := now })] },
       none)

/-- `SubmitTransaction(tx)`: rejects `tx.UserID == "" || tx.Amount <= 0`;
otherwise stamps ID (`"tx_%d"` of the current nanosecond clock, modelled by
`now`), timestamp and status `"pending"`, appends the stamped copy to the
transaction log, and then attempts a non-blocking send on the settlement
channel: if the buffer is full the log keeps the entry but the call returns
the queue-full error.  The stamping (`tx.ID = fmt.Sprintf("tx_%d", now)`,
`tx.Timestamp`, `tx.Status = "pending"`) is factored out as `stampTx`. -/
def stampTx (tx : Transaction) (now : Nat) : Transaction :=
  { tx with id := "tx_" ++ toString now, timestamp := now,
            status := "pending" }

/-- See the comment on `stampTx` above: validation, stamping, log append,
then the non-blocking channel send. -/
def SubmitTransaction (s : EngineState) (tx : Transaction) (now : Nat) :
    EngineState × Option EngineError :=
  if tx.userId = "" ∨ tx.amount ≤ 0 then
    (s, some .invalidTransaction)
  else
    let tx' := stampTx tx now
    let s' := { s with transactions := s.transactions ++ [tx'] }
    if s'.queue.length < s'.queueCap then
      ({ s' with queue := s'.queue ++ [tx'] }, none)
    else
      (s', some .queueFull)

/-- The per-transaction body of the loop in `batchProcessTransactions`
(also the body of `processTransaction`): look up the account; if absent,
produce a failure result with `msgAccountNotFound` (NewBalance is Go's zero
value 0); otherwise branch on the kind: credit always succeeds with
balance + amount, debit succeeds iff amount ≤ balance (Go:
`account.Balance >= tx.Amount`; else failure with `msgInsufficientBalance`
and the unchanged balance), any other kind fails with
`msgInvalidTransactionKind`.  Go computes `(newBalance, success, errorMsg)`
in a `switch` and then commits under `if success`; here that switch and
the conditional commit are flattened into one decision tree with the
commit (`updateAccount`, version increment, timestamp update) inlined into
each successful branch. -/
def settleOne (accounts : List (String × Account)) (tx : Transaction)
    (now : Nat) : List (String × Account) × SettlementResult :=
  match lookupAccount accounts tx.userId with
  | none =>
      (accounts,
       { transactionId := tx.id, success := false, newBalance := 0,
         errorMessage := msgAccountNotFound, timestamp := now })
  | some account =>
      if tx.kind = "credit" then
        (updateAccount accounts tx.userId
           { account with balance := account.balance + tx.amount,
                          version := account.version + 1, updatedAt := now },
         { transactionId := tx.id, success := true,
           newBalance := account.balance + tx.amount,
           errorMessage := "", timestamp := now })
      else if tx.kind = "debit" then
        if tx.amount ≤ account.balance then
          (updateAccount accounts tx.userId
             { account with balance := account.balance - tx.amount,
                            version := account.version + 1, updatedAt := now },
           { transactionId := tx.id, success := true,
             newBalance := account.balance - tx.amount,
             errorMessage := "", timestamp := now })
        else
          (accounts,
           { transactionId := tx.id, success := false,
             newBalance := account.balance,
             errorMessage := msgInsufficientBalance, timestamp := now })
      else
        (accounts,
         { transactionId := tx.id, success := false,
           newBalance := account.balance,
           errorMessage := msgInvalidTransactionKind, timestamp := now })

/-- `batchProcessTransactions(txs)`: apply `settleOne` to each transaction
in slice order, threading the accounts map, and collect one result per
transaction at the matching index.  The transaction log is not touched. -/
def batchProcessTransactions (accounts : List (String × Account))
    (txs : List Transaction) (now : Nat) :
    List (String × Account) × List SettlementResult :=
  match txs with
  | [] => (accounts, [])
  | tx :: rest =>
      let r := settleOne accounts tx now
      let rs := batchProcessTransactions r.1 rest now
      (rs.1, r.2 :: rs.2)

/-- The mutation `FreezeAmount` applies to the stored account: balance
decreases by the amount, frozen grows by it, version++ and timestamp. -/
def freezeUpd (account : Account) (amount : ℚ) (now : Nat) : Account :=
  { account with balance := account.balance - amount,
                 frozenAmount := account.frozenAmount + amount,
                 version := account.version + 1,
                 updatedAt := now }

/-- The mutation `UnfreezeAmount` applies to the stored account: balance
grows by the amount, frozen decreases by it, version++ and timestamp. -/
def unfreezeUpd (account : Account) (amount : ℚ) (now : Nat) : Account :=
  { account with balance := account.balance + amount,
                 frozenAmount := account.frozenAmount - amount,
                 version := account.version + 1,
                 updatedAt := now }

/-- `FreezeAmount(userID, amount)`: fails if the account is absent or
`Balance < amount`; otherwise moves `amount` from balance to frozen,
increments version and updates the timestamp.  No sign check on `amount`. -/
def FreezeAmount (s : EngineState) (userID : String) (amount : ℚ)
    (now : Nat) : EngineState × Option EngineError :=
  match lookupAccount s.accounts userID with
  | none => (s, some .accountNotFound)
  | some account =>
      if account.balance < amount then
        (s, some .insufficientBalance)
      else
        ({ s with accounts :=
             updateAccount s.accounts userID (freezeUpd account amount now) },
         none)

/-- `UnfreezeAmount(userID, amount)`: fails if the account is absent or
`FrozenAmount < amount`; otherwise moves `amount` from frozen back to
balance, increments version and updates the timestamp. -/
def UnfreezeAmount (s : EngineState) (userID : String) (amount : ℚ)
    (now : Nat) : EngineState × Option EngineError :=
  match lookupAccount s.accounts userID with
  | none => (s, some .accountNotFound)
  | some account =>
      if account.frozenAmount < amount then
        (s, some .insufficientFrozenFunds)
      else
        ({ s with accounts :=
             updateAccount s.accounts userID (unfreezeUpd account amount now) },
         none)

/-- The four counters returned by `GetTransactionStats`. -/
structure Stats where
  totalAccounts : Nat
  totalTransactions : Nat
  pendingTransactions : Nat
  processedTransactions : Nat
deriving Repr, DecidableEq

/-- `GetTransactionStats`: account and log sizes, plus the split of logged
transactions into `Status == "pending"` and everything else. -/
def GetTransactionStats (s : EngineState) : Stats :=
  { totalAccounts := s.accounts.length,
    totalTransactions := s.transactions.length,
    pendingTransactions :=
      (s.transactions.filter (fun tx => tx.status == "pending")).length,
    processedTransactions :=
      (s.transactions.filter (fun tx => !(tx.status == "pending"))).length }

/-- The three `select` arms of the `processSettlementQueue` loop: a
transaction arriving on the settlement channel, the flush timer firing, and
the stop signal. -/
inductive QueueEvent where
  | arrival (tx : Transaction)
  | timerFire
  | stop
deriving Repr, DecidableEq

/-- Observable outcome of one iteration of the `processSettlementQueue`
loop: the accounts map after the arm ran, the batch buffer contents,
whether `processBatch` was invoked in this arm, whether `timer.Reset` was
called, and whether the loop returned. -/
structure LoopStepResult where
  accounts : List (String × Account)
  batch : List Transaction
  flushed : Bool
  timerReset : Bool
  exited : Bool
deriving Repr, DecidableEq

/-- One iteration of the `processSettlementQueue` loop, as a function of
the select arm taken.  Arrival: append to the batch; if the batch length
has reached `batchSize`, process it, clear it and reset the timer.  Timer:
process a non-empty batch and clear it; reset the timer either way.  Stop:
process a non-empty batch and return.  (`processBatch` settles the batch
via `batchProcessTransactions` and only logs the results.) -/
def processSettlementQueueStep (batchSize : Nat)
    (accounts : List (String × Account)) (batch : List Transaction)
    (now : Nat) : QueueEvent → LoopStepResult
  | .arrival tx =>
      let batch' := batch ++ [tx]
      if batchSize ≤ batch'.length then
        { accounts := (batchProcessTransactions accounts batch' now).1,
          batch := [], flushed := true, timerReset := true, exited := false }
      else
        { accounts := accounts, batch := batch', flushed := false,
          timerReset := false, exited := false }
  | .timerFire =>
      if batch.length > 0 then
        { accounts := (batchProcessTransactions accounts batch now).1,
          batch := [], flushed := true, timerReset := true, exited := false }
      else
        { accounts := accounts, batch := batch, flushed := false,
          timerReset := true, exited := false }
  | .stop =>
      if batch.length > 0 then
        { accounts := (batchProcessTransactions accounts batch now).1,
          batch := batch, flushed := true, timerReset := false, exited := true }
      else
        { accounts := accounts, batch := batch, flushed := false,
          timerReset := false, exited := true }

/-- The operations of claim C1 (createAccount, settlement of one
transaction, freeze, unfreeze), each tagged with its arguments. -/
inductive Op where
  | create (userId : String) (initialBalance : ℚ)
  | settle (tx : Transaction)
  | freeze (userId : String) (amount : ℚ)
  | unfreeze (userId : String) (amount : ℚ)
deriving Repr, DecidableEq

/-- Run one operation (with the clock reading `now`), keeping the state it
leaves behind; a failing operation leaves the state unchanged, exactly as
the Go methods do. -/
def runOp (s : EngineState) (op : Op) (now : Nat) : EngineState :=
  match op with
  | .create u b => (CreateAccount s u b now).1
  | .settle tx => { s with accounts := (settleOne s.accounts tx now).1 }
  | .freeze u a => (FreezeAmount s u a now).1
  | .unfreeze u a => (UnfreezeAmount s u a now).1

/-- Run a sequence of operations, each paired with its clock reading. -/
def runOps (s : EngineState) (ops : List (Op × Nat)) : EngineState :=
  ops.foldl (fun st p => runOp st p.1 p.2) s

/-- Nonnegative initial balance for account creation, positive amount for a
settled transaction (what `SubmitTransaction` admits into the queue), and
nonnegative amounts for freeze and unfreeze. -/
def goodOp : Op → Prop
  | .create _ b => 0 ≤ b
  | .settle tx => 0 < tx.amount
  | .freeze _ a => 0 ≤ a
  | .unfreeze _ a => 0 ≤ a

instance : DecidablePred goodOp := by
  intro op
  cases op <;> simp [goodOp] <;> infer_instance

/-- Every account in the map has nonnegative available balance and
nonnegative frozen amount. -/
def AccountsNonneg (accounts : List (String × Account)) : Prop :=
  ∀ p ∈ accounts, 0 ≤ p.2.balance ∧ 0 ≤ p.2.frozenAmount

instance : DecidablePred AccountsNonneg := fun accounts =>
  List.decidableBAll _ accounts


/-! ### Concrete fixtures used by the witness theorems -/

/-- A concrete account: user "u1" holding 900 with nothing frozen. -/
def acct1 : Account :=
  { userId := "u1", balance := 900, frozenAmount := 0, version := 1,
    updatedAt := 0 }

/-- A concrete account: user "u2" holding 500 with nothing frozen. -/
def acct2 : Account :=
  { userId := "u2", balance := 500, frozenAmount := 0, version := 1,
    updatedAt := 0 }

/-- A concrete debit of 1000 by "u1" (more than `acct1` holds). -/
def txDebit : Transaction :=
  { id := "t1", userId := "u1", amount := 1000, kind := "debit",
    status := "pending", timestamp := 0, description := "" }

/-- A concrete credit of 50 to "u2". -/
def txCredit : Transaction :=
  { id := "t2", userId := "u2", amount := 50, kind := "credit",
    status := "pending", timestamp := 0, description := "" }

/-- A concrete transaction of unknown kind "refund" for "u2". -/
def txBadKind : Transaction :=
  { id := "t3", userId := "u2", amount := 50, kind := "refund",
    status := "pending", timestamp := 0, description := "" }

/-- `txCredit` with`userId` blanked, an invalid submission. -/
def txNoUser : Transaction :=
  { txCredit with userId := "" }

/-- A concrete debit of 5 by the absent user "u9". -/
def txGhost : Transaction :=
  { id := "t4", userId := "u9", amount := 5, kind := "debit",
    status := "pending", timestamp := 0, description := "" }

/-- A two-account ledger fixture holding `acct1` and `acct2`. -/
def ledger2 : List (String × Account) := [("u1", acct1), ("u2", acct2)]

/-- An engine whose accounts map is `ledger2`. -/
def engLedger2 : EngineState :=
  { NewSettlementEngine with accounts := ledger2 }

/-- A concrete well-formed operation sequence: create "u" with balance 5,
freeze 2 of it, then settle a credit of 50 to the (absent) user "u2". -/
def opsW : List (Op × Nat) :=
  [(Op.create "u" 5, 0), (Op.freeze "u" 2, 1), (Op.settle txCredit, 2)]

/-! ### Supporting lemmas about the accounts map -/

theorem mem_of_lookupAccount {accounts : List (String × Account)}
    {u : String} {a : Account} (h : lookupAccount accounts u = some a) :
    ∃ p ∈ accounts, p.2 = a := by
  unfold lookupAccount at h
  cases hf : List.find? (fun p => p.1 == u) accounts with
  | none => rw [hf] at h; simp at h
  | some q =>
      rw [hf] at h
      simp at h
      exact ⟨q, List.mem_of_find?_eq_some hf, h⟩

theorem lookupAccount_updateAccount_self {accounts : List (String × Account)}
    {u : String} {b : Account} (h : lookupAccount accounts u = some b)
    (a : Account) : lookupAccount (updateAccount accounts u a) u = some a := by
  induction accounts with
  | nil => unfold lookupAccount at h; simp at h
  | cons q rest ih =>
      by_cases hq : (q.1 == u) = true
      · have heq : q.1 = u := by simpa using hq
        have hupd : updateAccount (q :: rest) u a = (q.1, a) :: updateAccount rest u a := by
          simp [updateAccount, heq]
        rw [hupd]
        unfold lookupAccount
        rw [List.find?_cons_of_pos _ (by simpa using hq)]
        rfl
      · have hq' : (q.1 == u) = false := by simpa using hq
        have hne : ¬ q.1 = u := by simpa using hq
        have hupd : updateAccount (q :: rest) u a = q :: updateAccount rest u a := by
          simp [updateAccount, hne]
        have hh : lookupAccount rest u = some b := by
          unfold lookupAccount at h ⊢
          rwa [List.find?_cons_of_neg _ (by simp [hq'])] at h
        rw [hupd]
        unfold lookupAccount
        rw [List.find?_cons_of_neg _ (by simp [hq'])]
        exact ih hh

theorem AccountsNonneg_updateAccount {accounts : List (String × Account)}
    {u : String} {a : Account} (h : AccountsNonneg accounts)
    (ha : 0 ≤ a.balance ∧ 0 ≤ a.frozenAmount) :
    AccountsNonneg (updateAccount accounts u a) := by
  intro p hp
  unfold updateAccount at hp
  rcases List.mem_map.1 hp with ⟨q, hq, rfl⟩
  by_cases hqu : q.1 == u
  · simpa [hqu] using ha
  · simpa [hqu] using h q hq

theorem settleOne_transactionId (accounts : List (String × Account))
    (tx : Transaction) (now : Nat) :
    (settleOne accounts tx now).2.transactionId = tx.id := by
  unfold settleOne
  cases lookupAccount accounts tx.userId with
  | none => rfl
  | some account =>
      by_cases hc : tx.kind = "credit"
      · simp [hc]
      · by_cases hd : tx.kind = "debit"
        · by_cases hle : tx.amount ≤ account.balance <;> simp [hc, hd, hle]
        · simp [hc, hd]

/-! ### Claim theorems -/

/-- Claim C3: for a debit transaction settled against an existing account,
settlement succeeds iff the amount is at most the balance at processing
time; on success the stored balance becomes old minus amount; on failure
the accounts map is unchanged and the result carries success = false, the
insufficient-balance message, and the unchanged old balance. -/
theorem C3_debitSettlement {accounts : List (String × Account)}
    {tx : Transaction} {a : Account} (now : Nat)
    (hlk : lookupAccount accounts tx.userId = some a)
    (hkind : tx.kind = "debit") :
    ((settleOne accounts tx now).2.success = true ↔ tx.amount ≤ a.balance) ∧
    (tx.amount ≤ a.balance →
      (settleOne accounts tx now).2.newBalance = a.balance - tx.amount ∧
      lookupAccount (settleOne accounts tx now).1 tx.userId =
        some { a with balance := a.balance - tx.amount,
                      version := a.version + 1, updatedAt := now }) ∧
    (¬ tx.amount ≤ a.balance →
      (settleOne accounts tx now).1 = accounts ∧
      (settleOne accounts tx now).2.success = false ∧
      (settleOne accounts tx now).2.errorMessage = msgInsufficientBalance ∧
      (settleOne accounts tx now).2.newBalance = a.balance) := by
  have hnc : ¬ tx.kind = "credit" := by rw [hkind]; decide
  by_cases hle : tx.amount ≤ a.balance
  · unfold settleOne
    rw [hlk]
    simp [hnc, hkind, hle, lookupAccount_updateAccount_self hlk]
  · unfold settleOne
    rw [hlk]
    simp [hnc, hkind, hle]

theorem C3_debitSettlement_witness :
    lookupAccount ledger2 txDebit.userId = some acct1 ∧
    txDebit.kind = "debit" ∧
    ¬ txDebit.amount ≤ acct1.balance ∧
    (settleOne ledger2 txDebit 5).1 = ledger2 ∧
    (settleOne ledger2 txDebit 5).2.success = false ∧
    (settleOne ledger2 txDebit 5).2.errorMessage = msgInsufficientBalance ∧
    (settleOne ledger2 txDebit 5).2.newBalance = acct1.balance := by
  have hlk : lookupAccount ledger2 txDebit.userId = some acct1 := by
    norm_num [lookupAccount, ledger2, txDebit]
  have hle : ¬ txDebit.amount ≤ acct1.balance := by
    norm_num [txDebit, acct1]
  have h := (C3_debitSettlement 5 hlk rfl).2.2 hle
  exact ⟨hlk, rfl, hle, h.1, h.2.1, h.2.2.1, h.2.2.2⟩

/-- Claim C7: a credit transaction settled against an existing account
always succeeds, the stored balance becomes old plus amount, and the
settlement result reports that new balance. -/
theorem C7_creditSettlement {accounts : List (String × Account)}
    {tx : Transaction} {a : Account} (now : Nat)
    (hlk : lookupAccount accounts tx.userId = some a)
    (hkind : tx.kind = "credit") :
    (settleOne accounts tx now).2.success = true ∧
    (settleOne accounts tx now).2.newBalance = a.balance + tx.amount ∧
    lookupAccount (settleOne accounts tx now).1 tx.userId =
      some { a with balance := a.balance + tx.amount,
                    version := a.version + 1, updatedAt := now } := by
  unfold settleOne
  rw [hlk]
  simp [hkind, lookupAccount_updateAccount_self hlk]

theorem C7_creditSettlement_witness :
    lookupAccount ledger2 txCredit.userId = some acct2 ∧
    txCredit.kind = "credit" ∧
    (settleOne ledger2 txCredit 7).2.success = true ∧
    (settleOne ledger2 txCredit 7).2.newBalance = (550 : ℚ) ∧
    lookupAccount (settleOne ledger2 txCredit 7).1 txCredit.userId =
      some { acct2 with balance := acct2.balance + txCredit.amount,
                        version := acct2.version + 1, updatedAt := 7 } := by
  have hlk : lookupAccount ledger2 txCredit.userId = some acct2 := by
    decide
  have h := C7_creditSettlement 7 hlk rfl
  refine ⟨hlk, rfl, h.1, ?_, h.2.2⟩
  rw [h.2.1]
  norm_num [acct2, txCredit]

/-- Claim C9: createAccount validates nothing about the initial balance:
for any absent userId and any initial balance (zero and negative included)
it succeeds and stores exactly that balance with frozen amount 0 and
version 1; when the userId exists it fails with the duplicate-account
error and the state is unchanged. -/
theorem C9_createAccount (s : EngineState) (u : String) (b : ℚ) (now : Nat) :
    (lookupAccount s.accounts u = none →
      (CreateAccount s u b now).2 = none ∧
      (CreateAccount s u b now).1 =
        { s with accounts := s.accounts ++
            [(u, { userId := u, balance := b, frozenAmount := 0,
                   version := 1, updatedAt := now })] }) ∧
    (∀ a, lookupAccount s.accounts u = some a →
      (CreateAccount s u b now).2 = some EngineError.duplicateAccount ∧
      (CreateAccount s u b now).1 = s) := by
  constructor
  · intro h
    unfold CreateAccount
    rw [h]
    exact ⟨rfl, rfl⟩
  · intro a h
    unfold CreateAccount
    rw [h]
    exact ⟨rfl, rfl⟩

theorem C9_createAccount_witness :
    lookupAccount NewSettlementEngine.accounts "u" = none ∧
    (CreateAccount NewSettlementEngine "u" (-7) 3).2 = none ∧
    (CreateAccount NewSettlementEngine "u" (-7) 3).1.accounts =
      [("u", { userId := "u", balance := -7, frozenAmount := 0,
               version := 1, updatedAt := 3 })] := by
  have hlk : lookupAccount NewSettlementEngine.accounts "u" = none := by
    norm_num [lookupAccount, NewSettlementEngine]
  have h := (C9_createAccount NewSettlementEngine "u" (-7) 3).1 hlk
  refine ⟨hlk, h.1, ?_⟩
  rw [h.2]
  norm_num [NewSettlementEngine]

/-- Claim C4: submitTransaction fails with the invalid-transaction error
exactly when the userId is empty or the amount is ≤ 0, and then the whole
state (in particular the transaction log) is unchanged; a transaction that
passes validation is appended to the log stamped with its assigned
identifier, submission timestamp and pending status, even when the queue
is full, in which case the call returns the queue-full error. -/
theorem C4_submitTransaction (s : EngineState) (tx : Transaction) (now : Nat) :
    ((SubmitTransaction s tx now).2 = some EngineError.invalidTransaction ↔
      tx.userId = "" ∨ tx.amount ≤ 0) ∧
    (tx.userId = "" ∨ tx.amount ≤ 0 → (SubmitTransaction s tx now).1 = s) ∧
    (¬ (tx.userId = "" ∨ tx.amount ≤ 0) →
      (SubmitTransaction s tx now).1.transactions =
        s.transactions ++ [stampTx tx now] ∧
      ((SubmitTransaction s tx now).2 = some EngineError.queueFull ↔
        s.queueCap ≤ s.queue.length)) := by
  by_cases hv : tx.userId = "" ∨ tx.amount ≤ 0
  · simp [SubmitTransaction, hv]
  · by_cases hq : s.queue.length < s.queueCap
    · simp [SubmitTransaction, stampTx, hv, hq]
    · simp [SubmitTransaction, stampTx, hv, hq]
      omega

theorem C4_submitTransaction_witness :
    ¬ (txCredit.userId = "" ∨ txCredit.amount ≤ 0) ∧
    (SubmitTransaction NewSettlementEngine txCredit 9).1.transactions =
      [stampTx txCredit 9] ∧
    ((SubmitTransaction NewSettlementEngine txCredit 9).2 =
        some EngineError.queueFull ↔ False) ∧
    (txNoUser.userId = "" ∨ txNoUser.amount ≤ 0) ∧
    (SubmitTransaction NewSettlementEngine txNoUser 9).1 =
      NewSettlementEngine := by
  have hv : ¬ (txCredit.userId = "" ∨ txCredit.amount ≤ 0) := by
    decide
  have h := (C4_submitTransaction NewSettlementEngine txCredit 9).2.2 hv
  have hv2 : txNoUser.userId = "" ∨ txNoUser.amount ≤ 0 := by
    left
    rfl
  have h2 := (C4_submitTransaction NewSettlementEngine txNoUser 9).2.1 hv2
  refine ⟨hv, ?_, ?_, hv2, h2⟩
  · rw [h.1]
    norm_num [NewSettlementEngine]
  · rw [h.2]
    norm_num [NewSettlementEngine]

/-- Claim C5: during a flush, settling a transaction of an absent account
yields the account-not-found failure result (with Go's zero NewBalance)
and changes nothing; a transaction of neither credit nor debit kind yields
the invalid-kind failure; every failed settlement leaves the accounts map
(hence every field of every account) unchanged; every successful
settlement stores the settled account with its version incremented by
exactly one and its timestamp set to the processing time. -/
theorem C5_settlementFailures (accounts : List (String × Account))
    (tx : Transaction) (now : Nat) :
    (lookupAccount accounts tx.userId = none →
      (settleOne accounts tx now).1 = accounts ∧
      (settleOne accounts tx now).2 =
        { transactionId := tx.id, success := false, newBalance := 0,
          errorMessage := msgAccountNotFound, timestamp := now }) ∧
    (∀ a, lookupAccount accounts tx.userId = some a →
      tx.kind ≠ "credit" → tx.kind ≠ "debit" →
      (settleOne accounts tx now).1 = accounts ∧
      (settleOne accounts tx now).2.success = false ∧
      (settleOne accounts tx now).2.errorMessage = msgInvalidTransactionKind) ∧
    ((settleOne accounts tx now).2.success = false →
      (settleOne accounts tx now).1 = accounts) ∧
    (∀ a, lookupAccount accounts tx.userId = some a →
      (settleOne accounts tx now).2.success = true →
      lookupAccount (settleOne accounts tx now).1 tx.userId =
        some { a with balance := (settleOne accounts tx now).2.newBalance,
                      version := a.version + 1, updatedAt := now }) := by
  refine ⟨?_, ?_, ?_, ?_⟩
  · intro h
    unfold settleOne
    rw [h]
    exact ⟨rfl, rfl⟩
  · intro a h hc hd
    unfold settleOne
    rw [h]
    simp [hc, hd]
  · intro hfail
    rcases hlk : lookupAccount accounts tx.userId with _ | a
    · unfold settleOne
      rw [hlk]
    · by_cases hc : tx.kind = "credit"
      · exfalso
        unfold settleOne at hfail
        rw [hlk] at hfail
        simp [hc] at hfail
      · by_cases hd : tx.kind = "debit"
        · by_cases hle : tx.amount ≤ a.balance
          · exfalso
            unfold settleOne at hfail
            rw [hlk] at hfail
            simp [hc, hd, hle] at hfail
          · unfold settleOne
            rw [hlk]
            simp [hc, hd, hle]
        · unfold settleOne
          rw [hlk]
          simp [hc, hd]
  · intro a hlk hsucc
    by_cases hc : tx.kind = "credit"
    · have h := C7_creditSettlement now hlk hc
      rw [h.2.1]
      exact h.2.2
    · by_cases hd : tx.kind = "debit"
      · by_cases hle : tx.amount ≤ a.balance
        · have h := (C3_debitSettlement now hlk hd).2.1 hle
          rw [h.1]
          exact h.2
        · exfalso
          have h := (C3_debitSettlement now hlk hd).1
          rw [hsucc] at h
          exact hle (h.1 rfl)
      · exfalso
        unfold settleOne at hsucc
        rw [hlk] at hsucc
        simp [hc, hd] at hsucc

theorem C5_settlementFailures_witness :
    lookupAccount ledger2 txGhost.userId = none ∧
    (settleOne ledger2 txGhost 4).1 = ledger2 ∧
    (settleOne ledger2 txGhost 4).2 =
      { transactionId := "t4", success := false, newBalance := 0,
        errorMessage := msgAccountNotFound, timestamp := 4 } ∧
    lookupAccount ledger2 txBadKind.userId = some acct2 ∧
    txBadKind.kind ≠ "credit" ∧ txBadKind.kind ≠ "debit" ∧
    (settleOne ledger2 txBadKind 4).1 = ledger2 ∧
    (settleOne ledger2 txBadKind 4).2.errorMessage =
      msgInvalidTransactionKind ∧
    (settleOne ledger2 txCredit 4).2.success = true ∧
    lookupAccount (settleOne ledger2 txCredit 4).1 txCredit.userId =
      some { acct2 with balance := (settleOne ledger2 txCredit 4).2.newBalance,
                        version := acct2.version + 1, updatedAt := 4 } := by
  have hg : lookupAccount ledger2 txGhost.userId = none := by decide
  have h1 := (C5_settlementFailures ledger2 txGhost 4).1 hg
  have hb : lookupAccount ledger2 txBadKind.userId = some acct2 := by decide
  have h2 := (C5_settlementFailures ledger2 txBadKind 4).2.1 acct2 hb
    (by decide) (by decide)
  have hc : lookupAccount ledger2 txCredit.userId = some acct2 := by decide
  have hsucc : (settleOne ledger2 txCredit 4).2.success = true := by decide
  have h4 := (C5_settlementFailures ledger2 txCredit 4).2.2.2 acct2 hc hsucc
  exact ⟨hg, h1.1, h1.2, hb, by decide, by decide, h2.1, h2.2.2, hsucc, h4⟩

/-- Claim C6 is false as stated: starting from a fresh engine, create "u"
with balance 10, then freeze a negative amount −5 (which the code accepts,
leaving frozen = −5); now freeze 2 succeeds (2 ≤ balance), but the
subsequent unfreeze of the same amount 2 fails with the
insufficient-frozen-funds error, since the frozen amount −3 is below 2. -/
theorem C6_counterexample :
    (FreezeAmount (CreateAccount NewSettlementEngine "u" 10 0).1 "u" (-5) 1).2 =
      none ∧
    (FreezeAmount
        (FreezeAmount (CreateAccount NewSettlementEngine "u" 10 0).1
          "u" (-5) 1).1 "u" 2 2).2 = none ∧
    (UnfreezeAmount
        (FreezeAmount
          (FreezeAmount (CreateAccount NewSettlementEngine "u" 10 0).1
            "u" (-5) 1).1 "u" 2 2).1 "u" 2 3).2 =
      some EngineError.insufficientFrozenFunds := by
  refine ⟨by decide, ?_, ?_⟩ <;>
    norm_num [FreezeAmount, UnfreezeAmount, CreateAccount, freezeUpd,
      unfreezeUpd, NewSettlementEngine, lookupAccount, updateAccount]

/-- Claim C6 (amended): for an account whose frozen amount is nonnegative
before the freeze, whenever freeze(u, a) succeeds the subsequent
unfreeze(u, a) also succeeds, and afterwards both the available balance
and the frozen amount equal their pre-freeze values. -/
theorem C6_freezeUnfreeze {s : EngineState} {u : String} {a : ℚ}
    {acct : Account} (now1 now2 : Nat)
    (hlk : lookupAccount s.accounts u = some acct)
    (hfr : 0 ≤ acct.frozenAmount)
    (hok : (FreezeAmount s u a now1).2 = none) :
    (UnfreezeAmount (FreezeAmount s u a now1).1 u a now2).2 = none ∧
    (lookupAccount
        ((UnfreezeAmount (FreezeAmount s u a now1).1 u a now2).1).accounts
        u).map (fun x => (x.balance, x.frozenAmount)) =
      some (acct.balance, acct.frozenAmount) := by
  by_cases hba : acct.balance < a
  · exfalso
    unfold FreezeAmount at hok
    rw [hlk] at hok
    simp [hba] at hok
  · have hstate : ((FreezeAmount s u a now1).1).accounts =
        updateAccount s.accounts u (freezeUpd acct a now1) := by
      unfold FreezeAmount
      rw [hlk]
      simp [hba]
    have hlk1 : lookupAccount ((FreezeAmount s u a now1).1).accounts u =
        some (freezeUpd acct a now1) := by
      rw [hstate]
      exact lookupAccount_updateAccount_self hlk _
    have hnofail : ¬ ((freezeUpd acct a now1).frozenAmount < a) := by
      unfold freezeUpd
      simp only []
      linarith
    constructor
    · unfold UnfreezeAmount
      rw [hlk1]
      simp [hnofail]
    · unfold UnfreezeAmount
      rw [hlk1]
      simp only [hnofail, if_false, ite_false]
      rw [lookupAccount_updateAccount_self hlk1 _]
      unfold unfreezeUpd freezeUpd
      simp

theorem C6_freezeUnfreeze_witness :
    lookupAccount engLedger2.accounts "u1" = some acct1 ∧
    (0 : ℚ) ≤ acct1.frozenAmount ∧
    (FreezeAmount engLedger2 "u1" 200 1).2 = none ∧
    (UnfreezeAmount (FreezeAmount engLedger2 "u1" 200 1).1 "u1" 200 2).2 =
      none ∧
    (lookupAccount
        ((UnfreezeAmount (FreezeAmount engLedger2 "u1" 200 1).1
          "u1" 200 2).1).accounts "u1").map
        (fun x => (x.balance, x.frozenAmount)) =
      some (acct1.balance, acct1.frozenAmount) := by
  have hlk : lookupAccount engLedger2.accounts "u1" = some acct1 := by decide
  have hfr : (0 : ℚ) ≤ acct1.frozenAmount := by decide
  have hok : (FreezeAmount engLedger2 "u1" 200 1).2 = none := by decide
  have h := C6_freezeUnfreeze 1 2 hlk hfr hok
  exact ⟨hlk, hfr, hok, h.1, h.2⟩

/-- Claim C1 is false as stated: `CreateAccount` accepts any initial
balance, so creating "u" with −1 is accepted (no error) and leaves an
account whose available balance is −1 < 0; likewise `FreezeAmount`
accepts the negative amount −5 on "v" (since 10 < −5 is false), leaving
frozen amount −5 < 0. -/
theorem C1_counterexample :
    (CreateAccount NewSettlementEngine "u" (-1) 0).2 = none ∧
    (lookupAccount (CreateAccount NewSettlementEngine "u" (-1) 0).1.accounts
        "u").map Account.balance = some (-1) ∧
    ¬ (0 : ℚ) ≤ -1 ∧
    (FreezeAmount (CreateAccount NewSettlementEngine "v" 10 0).1
        "v" (-5) 1).2 = none ∧
    (lookupAccount
        (FreezeAmount (CreateAccount NewSettlementEngine "v" 10 0).1
          "v" (-5) 1).1.accounts "v").map Account.frozenAmount =
      some (-5) ∧
    ¬ (0 : ℚ) ≤ -5 := by
  refine ⟨by decide, by decide, by norm_num, by decide, ?_, by norm_num⟩
  norm_num [FreezeAmount, CreateAccount, freezeUpd, NewSettlementEngine,
    lookupAccount, updateAccount]

theorem settleOne_nonneg {accounts : List (String × Account)}
    {tx : Transaction} (now : Nat) (hamt : 0 < tx.amount)
    (h : AccountsNonneg accounts) :
    AccountsNonneg (settleOne accounts tx now).1 := by
  rcases hlk : lookupAccount accounts tx.userId with _ | a
  · unfold settleOne
    rw [hlk]
    exact h
  · obtain ⟨p, hp, hpa⟩ := mem_of_lookupAccount hlk
    have hacc := h p hp
    rw [hpa] at hacc
    by_cases hc : tx.kind = "credit"
    · unfold settleOne
      rw [hlk]
      simp only [hc, if_true, ite_true, if_pos]
      refine AccountsNonneg_updateAccount h ⟨?_, ?_⟩
      · dsimp only
        linarith [hacc.1]
      · exact hacc.2
    · by_cases hd : tx.kind = "debit"
      · by_cases hle : tx.amount ≤ a.balance
        · unfold settleOne
          rw [hlk]
          simp only [hc, hd, hle, ite_true, ite_false, if_pos, if_neg,
            not_false_iff]
          refine AccountsNonneg_updateAccount h ⟨?_, ?_⟩
          · dsimp only
            linarith [hacc.1]
          · exact hacc.2
        · unfold settleOne
          rw [hlk]
          simp only [hc, hd, hle, ite_true, ite_false, if_neg,
            not_false_iff]
          exact h
      · unfold settleOne
        rw [hlk]
        simp only [hc, hd, ite_false, if_neg, not_false_iff]
        exact h

theorem runOp_nonneg {s : EngineState} (h : AccountsNonneg s.accounts)
    {op : Op} (hop : goodOp op) (now : Nat) :
    AccountsNonneg ((runOp s op now).accounts) := by
  cases op with
  | create u b =>
      have hb : (0 : ℚ) ≤ b := hop
      rcases hlk : lookupAccount s.accounts u with _ | a
      · simp only [runOp]
        unfold CreateAccount
        rw [hlk]
        intro p hp
        simp only [List.mem_append, List.mem_singleton] at hp
        rcases hp with hp | hp
        · exact h p hp
        · rw [hp]
          exact ⟨hb, le_refl 0⟩
      · simp only [runOp]
        unfold CreateAccount
        rw [hlk]
        exact h
  | settle tx =>
      exact settleOne_nonneg now hop h
  | freeze u a =>
      have ha : (0 : ℚ) ≤ a := hop
      rcases hlk : lookupAccount s.accounts u with _ | acct
      · simp only [runOp]
        unfold FreezeAmount
        rw [hlk]
        exact h
      · obtain ⟨p, hp, hpa⟩ := mem_of_lookupAccount hlk
        have hacc := h p hp
        rw [hpa] at hacc
        by_cases hba : acct.balance < a
        · simp only [runOp]
          unfold FreezeAmount
          rw [hlk]
          simp only [hba, ite_true, if_pos]
          exact h
        · simp only [runOp]
          unfold FreezeAmount
          rw [hlk]
          simp only [hba, ite_false, if_neg, not_false_iff]
          refine AccountsNonneg_updateAccount h ⟨?_, ?_⟩
          · unfold freezeUpd
            dsimp only
            linarith
          · unfold freezeUpd
            dsimp only
            linarith
  | unfreeze u a =>
      have ha : (0 : ℚ) ≤ a := hop
      rcases hlk : lookupAccount s.accounts u with _ | acct
      · simp only [runOp]
        unfold UnfreezeAmount
        rw [hlk]
        exact h
      · obtain ⟨p, hp, hpa⟩ := mem_of_lookupAccount hlk
        have hacc := h p hp
        rw [hpa] at hacc
        by_cases hfa : acct.frozenAmount < a
        · simp only [runOp]
          unfold UnfreezeAmount
          rw [hlk]
          simp only [hfa, ite_true, if_pos]
          exact h
        · simp only [runOp]
          unfold UnfreezeAmount
          rw [hlk]
          simp only [hfa, ite_false, if_neg, not_false_iff]
          refine AccountsNonneg_updateAccount h ⟨?_, ?_⟩
          · unfold unfreezeUpd
            dsimp only
            linarith
          · unfold unfreezeUpd
            dsimp only
            linarith

theorem runOps_nonneg {s : EngineState} (h : AccountsNonneg s.accounts)
    {ops : List (Op × Nat)} (hops : ∀ p ∈ ops, goodOp p.1) :
    AccountsNonneg ((runOps s ops).accounts) := by
  induction ops generalizing s with
  | nil => exact h
  | cons op rest ih =>
      exact ih (runOp_nonneg h (hops op (by simp)) op.2)
        (fun p hp => hops p (by simp [hp]))

/-- Claim C1 (amended): starting from a fresh engine, after any sequence
of createAccount, settlement, freeze and unfreeze operations in which
every created account has nonnegative initial balance, every settled
transaction has positive amount (as `SubmitTransaction` guarantees for
everything reaching the queue), and every freeze/unfreeze amount is
nonnegative, every account's available balance and frozen amount are ≥ 0. -/
theorem C1_amended (ops : List (Op × Nat))
    (hops : ∀ p ∈ ops, goodOp p.1) :
    AccountsNonneg ((runOps NewSettlementEngine ops).accounts) := by
  refine runOps_nonneg ?_ hops
  intro p hp
  simp [NewSettlementEngine] at hp

theorem C1_amended_witness :
    (∀ p ∈ opsW, goodOp p.1) ∧
    AccountsNonneg ((runOps NewSettlementEngine opsW).accounts) := by
  have hops : ∀ p ∈ opsW, goodOp p.1 := by decide
  exact ⟨hops, C1_amended opsW hops⟩

/-- Claim C8: in the `processSettlementQueue` loop, an arrival that brings
the batch up to the configured batch size flushes it in the same arm
(without waiting for the timer), leaving an empty buffer and resetting the
timer, while an arrival below the threshold only accumulates; a timer
expiry flushes a non-empty batch and is a no-op on an empty one, resetting
the timer in either case; a stop signal flushes whatever the buffer holds
(flushing an empty buffer changes nothing) and exits the loop. -/
theorem C8_queueLoop (batchSize : Nat) (accounts : List (String × Account))
    (batch : List Transaction) (tx : Transaction) (now : Nat) :
    (batchSize ≤ (batch ++ [tx]).length →
      processSettlementQueueStep batchSize accounts batch now (.arrival tx) =
        { accounts := (batchProcessTransactions accounts (batch ++ [tx]) now).1,
          batch := [], flushed := true, timerReset := true,
          exited := false }) ∧
    (¬ batchSize ≤ (batch ++ [tx]).length →
      processSettlementQueueStep batchSize accounts batch now (.arrival tx) =
        { accounts := accounts, batch := batch ++ [tx], flushed := false,
          timerReset := false, exited := false }) ∧
    (batch ≠ [] →
      processSettlementQueueStep batchSize accounts batch now .timerFire =
        { accounts := (batchProcessTransactions accounts batch now).1,
          batch := [], flushed := true, timerReset := true,
          exited := false }) ∧
    (batch = [] →
      processSettlementQueueStep batchSize accounts batch now .timerFire =
        { accounts := accounts, batch := batch, flushed := false,
          timerReset := true, exited := false }) ∧
    (processSettlementQueueStep batchSize accounts batch now .stop).exited =
      true ∧
    (processSettlementQueueStep batchSize accounts batch now .stop).accounts =
      (batchProcessTransactions accounts batch now).1 := by
  refine ⟨?_, ?_, ?_, ?_, ?_, ?_⟩
  · intro hfull
    unfold processSettlementQueueStep
    simp only [List.length_append, List.length_singleton] at hfull
    simp [hfull]
  · intro hfull
    unfold processSettlementQueueStep
    simp only [List.length_append, List.length_singleton] at hfull
    simp [hfull]
  · intro hne
    have hlen : batch.length > 0 := List.length_pos.2 hne
    unfold processSettlementQueueStep
    simp [hlen]
  · intro hnil
    unfold processSettlementQueueStep
    simp [hnil]
  · unfold processSettlementQueueStep
    by_cases hlen : batch.length > 0 <;> simp [hlen]
  · unfold processSettlementQueueStep
    by_cases hlen : batch.length > 0
    · simp [hlen]
    · have hnil : batch = [] := by
        cases batch with
        | nil => rfl
        | cons b bs => simp at hlen
      subst hnil
      simp [batchProcessTransactions]

theorem C8_queueLoop_witness :
    (2 ≤ (([txCredit] : List Transaction) ++ [txCredit]).length) ∧
    processSettlementQueueStep 2 ledger2 [txCredit] 3 (.arrival txCredit) =
      { accounts :=
          (batchProcessTransactions ledger2 ([txCredit] ++ [txCredit]) 3).1,
        batch := [], flushed := true, timerReset := true, exited := false } ∧
    (¬ 2 ≤ (([] : List Transaction) ++ [txCredit]).length) ∧
    processSettlementQueueStep 2 ledger2 [] 3 (.arrival txCredit) =
      { accounts := ledger2, batch := [txCredit], flushed := false,
        timerReset := false, exited := false } ∧
    ([txCredit] : List Transaction) ≠ [] ∧
    processSettlementQueueStep 2 ledger2 [txCredit] 3 .timerFire =
      { accounts := (batchProcessTransactions ledger2 [txCredit] 3).1,
        batch := [], flushed := true, timerReset := true, exited := false } ∧
    processSettlementQueueStep 2 ledger2 [] 3 .timerFire =
      { accounts := ledger2, batch := [], flushed := false,
        timerReset := true, exited := false } ∧
    (processSettlementQueueStep 2 ledger2 [txCredit] 3 .stop).exited = true ∧
    (processSettlementQueueStep 2 ledger2 [txCredit] 3 .stop).accounts =
      (batchProcessTransactions ledger2 [txCredit] 3).1 := by
  have h1 := C8_queueLoop 2 ledger2 [txCredit] txCredit 3
  have h2 := C8_queueLoop 2 ledger2 [] txCredit 3
  exact ⟨by decide, h1.1 (by decide), by decide, h2.2.1 (by decide),
    by decide, h1.2.2.1 (by decide), h2.2.2.2.1 rfl, h1.2.2.2.2.1,
    h1.2.2.2.2.2⟩

/-- Claim C10: a batch flush returns one settlement result per input
transaction, the result at each index carrying the identifier of the
input at that index (stated as equality of the mapped identifier lists),
and the accounts map is threaded left to right: the final map is the left
fold of the single-transaction settlement over the inputs in order, so
each transaction is settled against the state left by all earlier
transactions of the batch. -/
theorem C10_batchStructure (accounts : List (String × Account))
    (txs : List Transaction) (now : Nat) :
    (batchProcessTransactions accounts txs now).2.map
        SettlementResult.transactionId = txs.map Transaction.id ∧
    (batchProcessTransactions accounts txs now).1 =
      txs.foldl (fun acc tx => (settleOne acc tx now).1) accounts := by
  induction txs generalizing accounts with
  | nil => simp [batchProcessTransactions]
  | cons tx rest ih =>
      unfold batchProcessTransactions
      constructor
      · simp only [List.map_cons, settleOne_transactionId]
        rw [(ih ((settleOne accounts tx now).1)).1]
      · simp only [List.foldl_cons]
        exact (ih ((settleOne accounts tx now).1)).2

/-- Claim C2 is refuted by the code: no code path ever writes a settled
status back into the transaction log (`batchProcessTransactions` returns
settlement results but never touches `se.transactions`, whose entries are
value copies made at submission).  Concretely: create "u2" with balance
500, submit a valid credit of 50 to "u2", and batch-process the queue; the
settlement itself succeeds, yet the single log entry still has status
"pending" and `GetTransactionStats` reports 1 pending and 0 processed
transactions. -/
theorem C2_statusNeverSet :
    (batchProcessTransactions
        ((SubmitTransaction (CreateAccount NewSettlementEngine "u2" 500 0).1
          txCredit 1).1).accounts
        ((SubmitTransaction (CreateAccount NewSettlementEngine "u2" 500 0).1
          txCredit 1).1).queue 2).2.map SettlementResult.success = [true] ∧
    ((SubmitTransaction (CreateAccount NewSettlementEngine "u2" 500 0).1
        txCredit 1).1).transactions.map Transaction.status = ["pending"] ∧
    (GetTransactionStats
        (SubmitTransaction (CreateAccount NewSettlementEngine "u2" 500 0).1
          txCredit 1).1).pendingTransactions = 1 ∧
    (GetTransactionStats
        (SubmitTransaction (CreateAccount NewSettlementEngine "u2" 500 0).1
          txCredit 1).1).processedTransactions = 0 := by
  refine ⟨?_, by decide, by decide, by decide⟩
  decide

end SettlementEngine
